import Mathlib

/-!
Verification of the DocDash rule-driven validation and remediation pipeline.

The development shallowly embeds the deterministic core of
`src/DocDash/validation/generator.py` (the validation code generator
`generate_pandas_validation`) and `src/DocDash/fixer/recommender.py`
(remediation synthesis and the remediation executor).

`generate_pandas_validation` first runs a loop that builds one source-text
snippet per recognised rule template; the embedding records, for each
snippet, the data the loop splices into the text.  The generator then
instantiates `pandas_code_template` through `str.format`.  The template
body contains unescaped braces (the dictionary literals of the emitted
`validate_data`), so `format` parses the brace opened at the `results`
literal as a replacement field and raises a `KeyError` on every input,
before any validation source exists.  Generation is therefore modelled as
the snippet loop followed by an unconditional raise, and no model of a
validation run is given, because no run ever occurs in the program.

The remediation synthesizer and executor are modelled in full: JSON values
parsed from service responses are Python values with Python truthiness, and
the external text-generation calls are explicit deterministic oracles
passed in as arguments.
-/

deriving instance DecidableEq for Except

/-! ## Character-level string utilities

Python string operations used by the compiler (`str.split`, `str.strip`,
membership, integer literals) are modelled over `String.data` character
lists so that all definitions reduce inside the kernel. -/

/-- One step of Python-style `str.split(sep)` over character lists, with
explicit fuel (one unit per consumed character) for structural recursion. -/
def splitTokAux (sep : List Char) : Nat → List Char → List Char → List (List Char)
  | 0, acc, rest => [acc.reverse ++ rest]
  | fuel + 1, acc, s =>
    if sep.isPrefixOf s && !sep.isEmpty then
      acc.reverse :: splitTokAux sep fuel [] (s.drop sep.length)
    else
      match s with
      | [] => [acc.reverse]
      | c :: cs => splitTokAux sep fuel (c :: acc) cs

/-- Python `s.split(sep)` for a non-empty separator: split on every
occurrence, scanning left to right without overlap. -/
def splitTok (sep s : List Char) : List (List Char) :=
  splitTokAux sep (s.length + 1) [] s

/-- Python `sep in s` (substring containment), expressed through `splitTok`:
the separator occurs in the string exactly when splitting produces more than
one piece. -/
def containsTok (s sep : List Char) : Bool :=
  (splitTok sep s).length > 1

/-- Python `s.strip()`: remove leading and trailing whitespace. -/
def trimChars (s : List Char) : List Char :=
  ((s.dropWhile Char.isWhitespace).reverse.dropWhile Char.isWhitespace).reverse

/-! ## Tabular data model

A dataset is a pandas DataFrame with named columns and the default integer
range index: row `i` carries label `i`.  The remediation synthesizer samples
failing rows from it by label, and the remediation executor threads a
working copy of it. -/

/-- A single cell of the dataset; `null` models a missing value. -/
inductive Cell where
  | null
  | num (n : Int)
  | str (s : String)
deriving DecidableEq, Repr

/-- A pandas DataFrame: named columns over rows of cells, indexed by row
position. -/
structure DataFrame where
  cols : List String
  rows : List (List Cell)
deriving DecidableEq, Repr

/-! ## Rule templates and the snippet loop of generate_pandas_validation

A rule template is the dictionary consumed by
`ValidationCodeGenerator.generate_pandas_validation`; optional fields model
dictionary keys that may be absent.  The generator first runs a loop that
appends one source-text snippet per recognised template to its `rules_code`
list, then splices the snippets into `pandas_code_template` with
`str.format`.  The embedding records, for each snippet, exactly the data
the loop splices into the text. -/

/-- A rule template dictionary.  Absent keys are modelled as `Option.none`;
the snippet loop reads `rule_id` by direct indexing (raising on absence)
and all other fields through defaulted lookups. -/
structure RuleTemplate where
  rule_id : Option String := Option.none
  type : Option String := Option.none
  elements : Option (List String) := Option.none
  logic : Option String := Option.none
  description : Option String := Option.none
  severity : Option String := Option.none
deriving DecidableEq, Repr

/-- A range bound token as spliced into the generated source text: the
default infinities or the raw text cut out of the logic string. -/
inductive Bnd where
  | neg_inf
  | pos_inf
  | lit (raw : List Char)
deriving DecidableEq, Repr

/-- The rule-specific data one snippet splices into the generated source
text.  For a categorical check the membership literal is the raw text cut
out of the logic string (defaulting to the empty-list literal), exactly as
the loop splices it. -/
inductive RuleKind where
  | range_check (col : String) (lb ub : Bnd)
  | categorical_check (col : String) (validValuesLit : List Char)
  | not_null_check (col : String)
  | cross_field_check (c1 c2 : String)
deriving DecidableEq, Repr

/-- The data spliced into one snippet appended to the rules_code list by
the template loop. -/
structure RuleSnippet where
  rule_id : String
  description : String
  severity : String
  kind : RuleKind
deriving DecidableEq, Repr

/-- The lower range bound cut out of the logic string: the text between
the first occurrence of the token made of greater-equal and the following
AND, stripped; negative infinity when the token is absent. -/
def parseLowerBound (logic : List Char) : Bnd :=
  if containsTok logic ['>', '='] then
    Bnd.lit (trimChars ((splitTok ['A', 'N', 'D'] ((splitTok ['>', '='] logic).getD 1 [])).getD 0 []))
  else Bnd.neg_inf

/-- The upper range bound cut out of the logic string: the text after the
first occurrence of the token made of less-equal, stripped; positive
infinity when the token is absent. -/
def parseUpperBound (logic : List Char) : Bnd :=
  if containsTok logic ['<', '='] then
    Bnd.lit (trimChars ((splitTok ['<', '='] logic).getD 1 []))
  else Bnd.pos_inf

/-- One iteration of the template loop of generate_pandas_validation:
reading rule_id by direct indexing raises a KeyError when the key is
absent; a template with missing or empty elements is skipped (ok none), as
is one with an unrecognised type or a cross-field rule with fewer than two
elements; a recognised type yields the data of one emitted snippet. -/
def rule_snippet (rule : RuleTemplate) : Except String (Option RuleSnippet) :=
  match rule.rule_id with
  | Option.none => Except.error "KeyError: rule_id"
  | some rid =>
    let rule_type := rule.type.getD ""
    let elements := rule.elements.getD []
    let logic := (rule.logic.getD "").data
    let descr := rule.description.getD ""
    let sev := rule.severity.getD "warning"
    match elements with
    | [] => Except.ok Option.none
    | primary :: restEls =>
      if rule_type = "range_check" then
        Except.ok (some ⟨rid, descr, sev,
          RuleKind.range_check primary (parseLowerBound logic) (parseUpperBound logic)⟩)
      else if rule_type = "categorical_check" then
        Except.ok (some ⟨rid, descr, sev,
          RuleKind.categorical_check primary
            (if containsTok logic ['I', 'N'] then
              trimChars ((splitTok ['I', 'N'] logic).getD 1 [])
            else ['[', ']'])⟩)
      else if rule_type = "not_null_check" then
        Except.ok (some ⟨rid, descr, sev, RuleKind.not_null_check primary⟩)
      else if rule_type = "cross_field_check" then
        match restEls with
        | secondary :: _ =>
          Except.ok (some ⟨rid, descr, sev, RuleKind.cross_field_check primary secondary⟩)
        | [] => Except.ok Option.none
      else Except.ok Option.none

/-- The whole template loop: the emitted snippets in input order; the first
raising template aborts generation. -/
def rules_code : List RuleTemplate → Except String (List RuleSnippet)
  | [] => Except.ok []
  | r :: rs =>
    match rule_snippet r with
    | Except.error e => Except.error e
    | Except.ok c =>
      match rules_code rs with
      | Except.error e => Except.error e
      | Except.ok rest => Except.ok (c.toList ++ rest)

/-- The exception of the format call that ends generation: the template
body holds unescaped braces, so str.format parses the brace opened at the
results literal as a replacement field whose name is the text up to the
first closing brace, a key absent from the keyword arguments. -/
def formatKeyError : String := "KeyError: \n        \"summary\""

/-- The model of generate_pandas_validation: the snippet loop followed by
the format call, which raises on every input, so no validation source text
is ever returned. -/
def generate_pandas_validation (templates : List RuleTemplate) : Except String String :=
  match rules_code templates with
  | Except.error e => Except.error e
  | Except.ok _ => Except.error formatKeyError

/-! ## Python dictionaries as association lists

Assignment replaces an existing key in place or appends a fresh key at the
end, matching insertion-ordered Python dictionaries. -/

/-- Dictionary lookup: the value at the first matching key, if any. -/
def alistGet {β : Type} : List (String × β) → String → Option β
  | [], _ => Option.none
  | (k1, v) :: rest, k => if k1 = k then some v else alistGet rest k

/-- Dictionary assignment: replace the first matching key in place, or
append the binding at the end when the key is fresh. -/
def alistSet {β : Type} : List (String × β) → String → β → List (String × β)
  | [], k, v => [(k, v)]
  | (k1, v1) :: rest, k, v =>
    if k1 = k then (k, v) :: rest else (k1, v1) :: alistSet rest k v

/-! ## The shape of a validation result

The result dictionary that the validate_data function described by
pandas_code_template would build, and which
RemediationRecommender.generate_remediation_recommendations consumes as its
validation_results argument.  Because generation always raises, no run of
the program ever constructs one; the recommender is nevertheless a total
function of whatever value is supplied to it. -/

/-- One entry of rule_results: the passed flag, description and severity;
a failed rule additionally carries its failing rows and an error
message. -/
structure RuleResult where
  passed : Bool
  description : String
  severity : String
  failed_records : Option (List Nat) := Option.none
  error_message : Option String := Option.none
deriving DecidableEq, Repr

/-- The summary block of a validation result. -/
structure ValidationSummary where
  total_rules : Nat
  passed_rules : Nat
  failed_rules : Nat
  validation_timestamp : String
deriving DecidableEq, Repr

/-- The full validation-result dictionary. -/
structure ValidationResults where
  summary : ValidationSummary
  rule_results : List (String × RuleResult)
deriving DecidableEq, Repr

/-- Map a fallible function over a list, propagating the first raise. -/
def mapExcept (f : α → Except String β) : List α → Except String (List β)
  | [] => Except.ok []
  | a :: as =>
    match f a with
    | Except.error e => Except.error e
    | Except.ok b =>
      match mapExcept f as with
      | Except.error e => Except.error e
      | Except.ok bs => Except.ok (b :: bs)

/-! ## Remediation synthesis and execution

The model of RemediationRecommender.  JSON values parsed from service
responses are modelled by PyVal with Python truthiness; the composite of
prompt formatting, the external text-generation call, code-fence stripping
and JSON parsing is a deterministic per-rule oracle, and the composite of
the code-generation call, exec, and callable extraction is a deterministic
oracle keyed by the automation-code value. -/

/-- A Python value as found in a parsed JSON response. -/
inductive PyVal where
  | bool (b : Bool)
  | int (n : Int)
  | str (s : String)
  | list (xs : List PyVal)
  | pynone

/-- Python truthiness of a parsed value. -/
def PyVal.truthy : PyVal → Bool
  | PyVal.bool b => b
  | PyVal.int n => decide (n ≠ 0)
  | PyVal.str s => !s.isEmpty
  | PyVal.list xs => !xs.isEmpty
  | PyVal.pynone => false

/-- A parsed JSON object / remediation plan dictionary. -/
def PlanObj : Type := List (String × PyVal)

/-- The keys the synthesizer requires in a parsed response, in the order it
checks them. -/
def requiredKeys : List String :=
  ["explanation", "remediation_steps", "can_automate", "auditor_explanation"]

/-- Fill each required key absent from the parsed response with the
placeholder text. -/
def fillMissing (obj : PlanObj) : PlanObj :=
  requiredKeys.foldl
    (fun acc k => if (alistGet acc k).isNone then alistSet acc k (PyVal.str "Not provided") else acc)
    obj

/-- The fallback plan returned when the service call or response parsing
raises: manual review, never automated. -/
def fallbackPlan (rid : String) (info : RuleTemplate) : PlanObj :=
  [("rule_id", PyVal.str rid),
   ("rule_type", PyVal.str (info.type.getD "unknown")),
   ("severity", PyVal.str (info.severity.getD "unknown")),
   ("explanation", PyVal.str "Could not generate explanation due to an error."),
   ("remediation_steps", PyVal.list [PyVal.str "Manual review required"]),
   ("can_automate", PyVal.bool false),
   ("automation_code", PyVal.str "N/A"),
   ("auditor_explanation", PyVal.str "Validation failed, but automatic remediation recommendation could not be generated. Manual review required.")]

/-- The model of generate_single_remediation: on a successfully parsed
response, fill the missing required keys with the placeholder and attach the
rule metadata; on any raise, return the fallback plan.  The response
argument stands for the formatted prompt sent through the external service
and parsed as JSON. -/
def generate_single_remediation (rid : String) (info : RuleTemplate)
    (response : Except String PlanObj) : PlanObj :=
  match response with
  | Except.error _ => fallbackPlan rid info
  | Except.ok obj =>
    let plan := fillMissing obj
    let plan := alistSet plan "rule_id" (PyVal.str rid)
    let plan := alistSet plan "rule_type" (PyVal.str (info.type.getD "unknown"))
    alistSet plan "severity" (PyVal.str (info.severity.getD "unknown"))

/-- The summary block of the recommendation result. -/
structure RemediationSummary where
  total_issues : Nat
  remediated_issues : Nat
  manual_review_issues : Nat
deriving DecidableEq, Repr

/-- The recommendation result: a summary and the plan dictionary keyed by
rule id. -/
structure Recommendations where
  summary : RemediationSummary
  remediation_plans : List (String × PlanObj)

/-- The empty rule-result dictionary used as the lookup default for a rule
id absent from rule_results. -/
def emptyRuleResult : RuleResult :=
  ⟨true, "", "", Option.none, Option.none⟩

/-- Select rows of the dataset by row label, as data.loc does for the sample
of failing rows: a label outside the index raises a KeyError. -/
def selectRows (df : DataFrame) (idxs : List Nat) : Except String (List (List Cell)) :=
  mapExcept (fun i =>
    match df.rows.get? i with
    | some r => Except.ok r
    | Option.none => Except.error "KeyError: row label not found") idxs

/-- The last template carrying the given rule id, as the rule-details
dictionary comprehension keeps (later duplicates overwrite earlier ones). -/
def lastTemplateFor (templates : List RuleTemplate) (rid : String) : Option RuleTemplate :=
  (templates.filter (fun t => t.rule_id = some rid)).getLast?

/-- One iteration of the failed-rule loop of
generate_remediation_recommendations: a failed rule with no recorded
failing rows is skipped; otherwise up to ten failing rows are fetched by
label (raising on an unknown label), the plan is synthesized, the summary
counter for its truthiness-tested can_automate flag is bumped, and the plan
is stored under the rule id. -/
def recommendStep (vr : ValidationResults) (data : DataFrame)
    (templates : List RuleTemplate) (responses : String → Except String PlanObj)
    (acc : Recommendations) (rid : String) : Except String Recommendations :=
  if (((alistGet vr.rule_results rid).getD emptyRuleResult).failed_records.getD []).isEmpty then
    Except.ok acc
  else
    match selectRows data
        ((((alistGet vr.rule_results rid).getD emptyRuleResult).failed_records.getD []).take 10) with
    | Except.error e => Except.error e
    | Except.ok _failed_data =>
      Except.ok
        ⟨(if ((alistGet (generate_single_remediation rid ((lastTemplateFor templates rid).getD {})
              (responses rid)) "can_automate").getD (PyVal.bool false)).truthy then
            ⟨acc.summary.total_issues, acc.summary.remediated_issues + 1,
              acc.summary.manual_review_issues⟩
          else
            ⟨acc.summary.total_issues, acc.summary.remediated_issues,
              acc.summary.manual_review_issues + 1⟩),
          alistSet acc.remediation_plans rid
            (generate_single_remediation rid ((lastTemplateFor templates rid).getD {})
              (responses rid))⟩

/-- Run the failed-rule loop over a list of rule ids. -/
def recommendLoop (vr : ValidationResults) (data : DataFrame)
    (templates : List RuleTemplate) (responses : String → Except String PlanObj) :
    Recommendations → List String → Except String Recommendations
  | acc, [] => Except.ok acc
  | acc, rid :: rest =>
    match recommendStep vr data templates responses acc rid with
    | Except.error e => Except.error e
    | Except.ok acc2 => recommendLoop vr data templates responses acc2 rest

/-- The model of generate_remediation_recommendations: collect the failed
rule ids in report order, return the bare summary when none failed, raise if
any template lacks a rule id (the rule-details dictionary comprehension
indexes every template), and otherwise run the failed-rule loop. -/
def generate_remediation_recommendations (vr : ValidationResults) (data : DataFrame)
    (templates : List RuleTemplate) (responses : String → Except String PlanObj) :
    Except String Recommendations :=
  let failed_rules := (vr.rule_results.filter (fun p => !p.2.passed)).map Prod.fst
  let base : Recommendations := ⟨⟨failed_rules.length, 0, 0⟩, []⟩
  if failed_rules.isEmpty then Except.ok base
  else if templates.any (fun t => t.rule_id.isNone) then Except.error "KeyError: rule_id"
  else recommendLoop vr data templates responses base failed_rules

/-- One record of the applied-remediation log. -/
structure AppliedRecord where
  rule_id : String
  status : String
  error : Option String := Option.none
  description : Option PyVal := Option.none

/-- The outcome of turning one automation-code value into a runnable
transformation: the service/exec step raised, exec produced no callable, or
a callable was extracted (which may itself raise when applied). -/
inductive TransformResult where
  | raised (msg : String)
  | noFunc
  | func (f : DataFrame → Except String DataFrame)

/-- One iteration of the remediation loop: skip the plan when its
can_automate value (defaulting to false) is falsy under Python truthiness;
otherwise attempt the transformation, threading the working dataset copy and
appending exactly one applied/failed record; a failure leaves the working
copy as it was. -/
def remediationStep (transformOf : PyVal → TransformResult)
    (acc : DataFrame × List AppliedRecord) (p : String × PlanObj) :
    DataFrame × List AppliedRecord :=
  if !((alistGet p.2 "can_automate").getD (PyVal.bool false)).truthy then acc
  else
    match transformOf ((alistGet p.2 "automation_code").getD (PyVal.str "")) with
    | TransformResult.raised e => (acc.1, acc.2 ++ [⟨p.1, "failed", some e, Option.none⟩])
    | TransformResult.noFunc =>
      (acc.1, acc.2 ++
        [⟨p.1, "failed", some "Could not extract remediation function from code", Option.none⟩])
    | TransformResult.func f =>
      match f acc.1 with
      | Except.ok d2 =>
        (d2, acc.2 ++
          [⟨p.1, "applied", Option.none, some ((alistGet p.2 "explanation").getD (PyVal.str ""))⟩])
      | Except.error e => (acc.1, acc.2 ++ [⟨p.1, "failed", some e, Option.none⟩])

/-- The model of apply_automatic_remediations: start from a copy of the
dataset and run the remediation loop over the plans in order. -/
def apply_automatic_remediations (data : DataFrame) (plans : List (String × PlanObj))
    (transformOf : PyVal → TransformResult) : DataFrame × List AppliedRecord :=
  plans.foldl (remediationStep transformOf) (data, [])

/-- Keys of a dictionary, in insertion order. -/
def keysOf {β : Type} (l : List (String × β)) : List String :=
  l.map Prod.fst

theorem alistGet_alistSet_self {β : Type} (l : List (String × β)) (k : String) (v : β) :
    alistGet (alistSet l k v) k = some v := by
  induction l with
  | nil => simp [alistGet, alistSet]
  | cons p rest ih =>
    obtain ⟨k1, v1⟩ := p
    by_cases h : k1 = k
    · subst h
      simp [alistGet, alistSet]
    · simp [alistGet, alistSet, h, ih]

theorem alistGet_alistSet_ne {β : Type} (l : List (String × β)) (k k2 : String) (v : β)
    (h : k2 ≠ k) : alistGet (alistSet l k v) k2 = alistGet l k2 := by
  have h2 : ¬(k = k2) := fun he => h he.symm
  induction l with
  | nil => simp [alistGet, alistSet, h2]
  | cons p rest ih =>
    obtain ⟨k1, v1⟩ := p
    by_cases h1 : k1 = k
    · subst h1
      simp [alistGet, alistSet, h2]
    · simp only [alistSet, if_neg h1, alistGet]
      by_cases h3 : k1 = k2
      · simp [h3]
      · simp [h3, ih]

theorem alistSet_of_not_mem {β : Type} (l : List (String × β)) (k : String) (v : β)
    (h : k ∉ keysOf l) : alistSet l k v = l ++ [(k, v)] := by
  induction l with
  | nil => rfl
  | cons p rest ih =>
    obtain ⟨k1, v1⟩ := p
    simp only [keysOf, List.map_cons, List.mem_cons] at h
    push_neg at h
    have h1 : ¬(k1 = k) := fun he => h.1 he.symm
    simp [alistSet, h1, ih (by simpa [keysOf] using h.2)]

theorem keysOf_alistSet_of_mem {β : Type} (l : List (String × β)) (k : String) (v : β)
    (h : k ∈ keysOf l) : keysOf (alistSet l k v) = keysOf l := by
  induction l with
  | nil => simp [keysOf] at h
  | cons p rest ih =>
    obtain ⟨k1, v1⟩ := p
    by_cases h1 : k1 = k
    · subst h1
      simp [alistSet, keysOf]
    · simp only [keysOf, List.map_cons, List.mem_cons] at h
      rcases h with h | h
      · exact absurd h.symm h1
      · have hr := ih (by simpa [keysOf] using h)
        simp only [keysOf] at hr
        simp [alistSet, h1, keysOf, hr]

theorem mem_keysOf_alistSet {β : Type} (l : List (String × β)) (k k2 : String) (v : β) :
    k2 ∈ keysOf (alistSet l k v) ↔ k2 ∈ keysOf l ∨ k2 = k := by
  by_cases h : k ∈ keysOf l
  · rw [keysOf_alistSet_of_mem l k v h]
    constructor
    · exact Or.inl
    · rintro (h2 | rfl)
      · exact h2
      · exact h
  · rw [alistSet_of_not_mem l k v h]
    simp [keysOf]

theorem nodup_keysOf_alistSet {β : Type} (l : List (String × β)) (k : String) (v : β)
    (h : (keysOf l).Nodup) : (keysOf (alistSet l k v)).Nodup := by
  by_cases hm : k ∈ keysOf l
  · rwa [keysOf_alistSet_of_mem l k v hm]
  · rw [alistSet_of_not_mem l k v hm]
    simp only [keysOf, List.map_append]
    rw [List.nodup_append]
    refine ⟨h, by simp, ?_⟩
    intro a ha
    simp only [List.map_cons, List.map_nil, List.mem_singleton]
    rintro rfl
    exact hm ha

theorem alistGet_isSome_iff {β : Type} (l : List (String × β)) (k : String) :
    (alistGet l k).isSome = true ↔ k ∈ keysOf l := by
  induction l with
  | nil => simp [alistGet, keysOf]
  | cons p rest ih =>
    obtain ⟨k1, v1⟩ := p
    by_cases h : k1 = k
    · subst h
      simp [alistGet, keysOf]
    · have h2 : ¬(k = k1) := fun he => h he.symm
      simp [alistGet, keysOf, h, h2, ih, keysOf]

theorem alistGet_eq_none_iff {β : Type} (l : List (String × β)) (k : String) :
    alistGet l k = Option.none ↔ k ∉ keysOf l := by
  rw [← alistGet_isSome_iff]
  cases alistGet l k <;> simp

theorem alistGet_mem {β : Type} (l : List (String × β)) (k : String) (v : β)
    (h : alistGet l k = some v) : (k, v) ∈ l := by
  induction l with
  | nil => simp [alistGet] at h
  | cons p rest ih =>
    obtain ⟨k1, v1⟩ := p
    by_cases h1 : k1 = k
    · subst h1
      have h3 : v1 = v := by simpa [alistGet] using h
      subst h3
      exact List.mem_cons_self _ _
    · simp only [alistGet, if_neg h1] at h
      exact List.mem_cons_of_mem _ (ih h)

theorem alistGet_of_mem_nodup {β : Type} (l : List (String × β)) (k : String) (v : β)
    (hnd : (keysOf l).Nodup) (h : (k, v) ∈ l) : alistGet l k = some v := by
  induction l with
  | nil => simp at h
  | cons p rest ih =>
    obtain ⟨k1, v1⟩ := p
    simp only [keysOf, List.map_cons, List.nodup_cons] at hnd
    rcases List.mem_cons.mp h with h2 | h2
    · rw [Prod.mk.injEq] at h2
      obtain ⟨rfl, rfl⟩ := h2
      simp [alistGet]
    · have hk : ¬(k1 = k) := by
        rintro rfl
        exact hnd.1 (by simpa using List.mem_map_of_mem Prod.fst h2)
      simp only [alistGet, if_neg hk]
      exact ih (by simpa [keysOf] using hnd.2) h2

theorem mapExcept_ok {α β : Type} (f : α → Except String β) (g : α → β) (l : List α)
    (h : ∀ a ∈ l, f a = Except.ok (g a)) : mapExcept f l = Except.ok (l.map g) := by
  induction l with
  | nil => rfl
  | cons a as ih =>
    simp only [mapExcept, h a (List.mem_cons_self a as),
      ih (fun x hx => h x (List.mem_cons_of_mem _ hx)), List.map_cons]

/-! ## Helper lemmas: generation always raises -/

/-- Whatever the templates, generate_pandas_validation raises: either the
snippet loop raises first, or the format call raises. -/
theorem generate_pandas_validation_raises (templates : List RuleTemplate) :
    ∃ e, generate_pandas_validation templates = Except.error e := by
  rcases h : rules_code templates with e | rs
  · exact ⟨e, by simp only [generate_pandas_validation, h]⟩
  · exact ⟨formatKeyError, by simp only [generate_pandas_validation, h]⟩

/-- generate_pandas_validation never returns validation source text. -/
theorem generate_pandas_validation_never_ok (templates : List RuleTemplate) (code : String) :
    generate_pandas_validation templates ≠ Except.ok code := by
  obtain ⟨e, he⟩ := generate_pandas_validation_raises templates
  rw [he]
  simp

/-- A template whose iteration emits a snippet carries the snippet's rule
id and a non-empty elements list. -/
theorem rule_snippet_ok_some (t : RuleTemplate) (r : RuleSnippet)
    (h : rule_snippet t = Except.ok (some r)) :
    t.rule_id = some r.rule_id ∧ t.elements.getD [] ≠ [] := by
  rcases hid : t.rule_id with _ | rid
  · simp only [rule_snippet, hid] at h
    exact Except.noConfusion h
  · simp only [rule_snippet, hid] at h
    rcases hels : t.elements.getD [] with _ | ⟨primary, restEls⟩
    · simp only [hels] at h
      simp at h
    · simp only [hels] at h
      refine ⟨?_, by simp⟩
      split at h
      · simp only [Except.ok.injEq, Option.some.injEq] at h
        rw [← h]
      · split at h
        · simp only [Except.ok.injEq, Option.some.injEq] at h
          rw [← h]
        · split at h
          · simp only [Except.ok.injEq, Option.some.injEq] at h
            rw [← h]
          · split at h
            · split at h
              · simp only [Except.ok.injEq, Option.some.injEq] at h
                rw [← h]
              · simp at h
            · simp at h

/-- Every snippet the loop emits traces back to a template carrying the
snippet's rule id and a non-empty elements list. -/
theorem rules_code_sources (templates : List RuleTemplate) (rules : List RuleSnippet)
    (hc : rules_code templates = Except.ok rules) :
    ∀ r ∈ rules, ∃ tmpl, tmpl ∈ templates ∧ tmpl.rule_id = some r.rule_id ∧
      tmpl.elements.getD [] ≠ [] := by
  induction templates generalizing rules with
  | nil =>
    simp only [rules_code, Except.ok.injEq] at hc
    subst hc
    intro r hr
    simp at hr
  | cons t ts ih =>
    simp only [rules_code] at hc
    rcases hsn : rule_snippet t with e | c
    · simp only [hsn] at hc
      exact Except.noConfusion hc
    · simp only [hsn] at hc
      rcases hrc : rules_code ts with e2 | rest
      · simp only [hrc] at hc
        exact Except.noConfusion hc
      · simp only [hrc, Except.ok.injEq] at hc
        subst hc
        intro r hr
        rcases List.mem_append.mp hr with h1 | h1
        · rcases c with _ | s
          · simp at h1
          · have hrs : r = s := by simpa using h1
            obtain ⟨h2, h3⟩ := rule_snippet_ok_some t s hsn
            refine ⟨t, List.mem_cons_self _ _, ?_, h3⟩
            rw [hrs]
            exact h2
        · obtain ⟨tmpl, hm, h2, h3⟩ := ih rest hrc r h1
          exact ⟨tmpl, List.mem_cons_of_mem _ hm, h2, h3⟩

/-! ## Concrete inputs used by witnesses and counterexamples -/

/-- A range-check template with bound texts 10 and 20 on the value
column. -/
def rangeTemplate : RuleTemplate :=
  { rule_id := some "r1", type := some "range_check", elements := some ["value"],
    logic := some "value >= 10 AND value <= 20", description := some "range rule",
    severity := some "high" }

/-- The snippet data the loop emits for rangeTemplate. -/
def rangeRule : RuleSnippet :=
  ⟨"r1", "range rule", "high",
    RuleKind.range_check "value" (Bnd.lit ['1', '0']) (Bnd.lit ['2', '0'])⟩

/-- The dataset of the range test of the specification: one numeric column
holding 5, 15, 25 and a missing value. -/
def rangeDf : DataFrame :=
  ⟨["value"], [[Cell.num 5], [Cell.num 15], [Cell.num 25], [Cell.null]]⟩

/-- A categorical template whose logic names the values A and B after an IN
token. -/
def catTemplate : RuleTemplate :=
  { rule_id := some "r2", type := some "categorical_check", elements := some ["status"],
    logic := some "status IN [\"A\", \"B\"]", description := some "cat rule",
    severity := some "medium" }

/-- The snippet data the loop emits for catTemplate: the raw membership
literal cut out of the logic string. -/
def catRule : RuleSnippet :=
  ⟨"r2", "cat rule", "medium", RuleKind.categorical_check "status" ("[\"A\", \"B\"]").data⟩

/-- A categorical template whose logic carries no IN token. -/
def noInTemplate : RuleTemplate :=
  { rule_id := some "r6", type := some "categorical_check", elements := some ["status"],
    logic := some "allowed values: A or B" }

/-- The snippet data the loop emits for noInTemplate: the default
empty-list literal. -/
def noInRule : RuleSnippet :=
  ⟨"r6", "", "warning", RuleKind.categorical_check "status" ['[', ']']⟩

/-- A dataset with a single present status value. -/
def oneRowDf : DataFrame :=
  ⟨["status"], [[Cell.str "A"]]⟩

/-- A template carrying a rule id but an empty elements list. -/
def noElemsTemplate : RuleTemplate :=
  { rule_id := some "r5", type := some "range_check", elements := some [] }

/-- A template missing its rule id. -/
def noRuleIdTemplate : RuleTemplate :=
  { rule_id := Option.none, type := some "range_check", elements := some ["v"] }

/-- A range template whose lower-bound token is not a numeric literal. -/
def badBoundTemplate : RuleTemplate :=
  { rule_id := some "rb", type := some "range_check", elements := some ["value"],
    logic := some "value >= abc" }

/-- The snippet data the loop emits for badBoundTemplate. -/
def badBoundRule : RuleSnippet :=
  ⟨"rb", "", "warning", RuleKind.range_check "value" (Bnd.lit ['a', 'b', 'c']) Bnd.pos_inf⟩

/-- A two-template batch, both templates recognised by the loop. -/
def mixedTemplates : List RuleTemplate := [rangeTemplate, badBoundTemplate]

/-- The snippet batch the loop emits for mixedTemplates. -/
def mixedRules : List RuleSnippet := [rangeRule, badBoundRule]

/-! ## C1 -/

/-- C1: the claim asserts that after every Validation Executor run the
summary satisfies total = passed + failed; but no such run ever occurs.
The snippet loop itself completes (on mixedTemplates it emits the two
snippets of mixedRules), yet the format call that would produce the
validation source raises a KeyError on every input, so
generate_pandas_validation never returns code, validate_data is never
defined, and no summary is ever produced by the program. -/
theorem C1_code_bug :
    rules_code mixedTemplates = Except.ok mixedRules ∧
    generate_pandas_validation mixedTemplates = Except.error formatKeyError ∧
    ∀ (templates : List RuleTemplate) (code : String),
      generate_pandas_validation templates ≠ Except.ok code :=
  ⟨by decide, by decide, fun ts code => generate_pandas_validation_never_ok ts code⟩

/-! ## C2 -/

/-- C2 counterexample: the claim describes which rows a compiled range
predicate reports; but on the range template of the specification the
generator emits the snippet and then raises the format KeyError, so no
range predicate is ever compiled and no row is ever reported. -/
theorem C2_counterexample :
    rules_code [rangeTemplate] = Except.ok [rangeRule] ∧
    generate_pandas_validation [rangeTemplate] = Except.error formatKeyError := by
  decide

/-- C2 amended: for a range-check template with a rule id and a non-empty
elements list, the loop iteration emits one snippet splicing the column and
the bound texts cut out of the logic string; generation nevertheless raises
on every input, so the spliced predicate never runs against any dataset. -/
theorem C2_amended (tmpl : RuleTemplate) (rid logic col : String) (restEls : List String)
    (hid : tmpl.rule_id = some rid) (htype : tmpl.type = some "range_check")
    (hels : tmpl.elements = some (col :: restEls)) (hlogic : tmpl.logic = some logic) :
    rule_snippet tmpl = Except.ok (some ⟨rid, tmpl.description.getD "",
      tmpl.severity.getD "warning",
      RuleKind.range_check col (parseLowerBound logic.data) (parseUpperBound logic.data)⟩) ∧
    ∀ templates : List RuleTemplate, ∃ e,
      generate_pandas_validation templates = Except.error e := by
  obtain ⟨a, b, c, d, e2, f⟩ := tmpl
  obtain rfl : a = some rid := hid
  obtain rfl : b = some "range_check" := htype
  obtain rfl : c = some (col :: restEls) := hels
  obtain rfl : d = some logic := hlogic
  exact ⟨rfl, fun ts => generate_pandas_validation_raises ts⟩

/-- C2 amended witness: the range template of the specification, whose
bound texts are 10 and 20. -/
theorem C2_amended_witness :
    rule_snippet rangeTemplate = Except.ok (some ⟨"r1", rangeTemplate.description.getD "",
      rangeTemplate.severity.getD "warning",
      RuleKind.range_check "value" (parseLowerBound ("value >= 10 AND value <= 20").data)
        (parseUpperBound ("value >= 10 AND value <= 20").data)⟩) ∧
    ∀ templates : List RuleTemplate, ∃ e,
      generate_pandas_validation templates = Except.error e :=
  C2_amended rangeTemplate "r1" "value >= 10 AND value <= 20" "value" [] rfl rfl rfl rfl

/-! ## C3 -/

/-- C3 counterexample: the claim describes which rows a compiled
categorical predicate reports; but on the categorical template of the
specification the generator emits the snippet (carrying the raw membership
literal) and then raises the format KeyError, so no categorical predicate
is ever compiled and no row is ever reported. -/
theorem C3_counterexample :
    rules_code [catTemplate] = Except.ok [catRule] ∧
    generate_pandas_validation [catTemplate] = Except.error formatKeyError := by
  decide

/-- C3 amended: for a categorical-check template with a rule id, a
non-empty elements list and an IN token in its logic, the loop iteration
emits one snippet splicing the column and the stripped text after the first
IN token; generation nevertheless raises on every input, so the spliced
predicate never runs against any dataset. -/
theorem C3_amended (tmpl : RuleTemplate) (rid logic col : String) (restEls : List String)
    (hid : tmpl.rule_id = some rid) (htype : tmpl.type = some "categorical_check")
    (hels : tmpl.elements = some (col :: restEls)) (hlogic : tmpl.logic = some logic)
    (hin : containsTok logic.data ['I', 'N'] = true) :
    rule_snippet tmpl = Except.ok (some ⟨rid, tmpl.description.getD "",
      tmpl.severity.getD "warning",
      RuleKind.categorical_check col (trimChars ((splitTok ['I', 'N'] logic.data).getD 1 []))⟩) ∧
    ∀ templates : List RuleTemplate, ∃ e,
      generate_pandas_validation templates = Except.error e := by
  obtain ⟨a, b, c, d, e2, f⟩ := tmpl
  obtain rfl : a = some rid := hid
  obtain rfl : b = some "categorical_check" := htype
  obtain rfl : c = some (col :: restEls) := hels
  obtain rfl : d = some logic := hlogic
  refine ⟨?_, fun ts => generate_pandas_validation_raises ts⟩
  have hred : rule_snippet ⟨some rid, some "categorical_check", some (col :: restEls),
      some logic, e2, f⟩ = Except.ok (some ⟨rid, e2.getD "", f.getD "warning",
      RuleKind.categorical_check col (if containsTok logic.data ['I', 'N'] then
        trimChars ((splitTok ['I', 'N'] logic.data).getD 1 [])
      else ['[', ']'])⟩) := rfl
  rw [hred, if_pos hin]

/-- C3 amended witness: the categorical template of the specification,
whose raw membership literal is the bracketed list naming A and B. -/
theorem C3_amended_witness :
    rule_snippet catTemplate = Except.ok (some ⟨"r2", catTemplate.description.getD "",
      catTemplate.severity.getD "warning",
      RuleKind.categorical_check "status"
        (trimChars ((splitTok ['I', 'N'] ("status IN [\"A\", \"B\"]").data).getD 1 []))⟩) ∧
    ∀ templates : List RuleTemplate, ∃ e,
      generate_pandas_validation templates = Except.error e :=
  C3_amended catTemplate "r2" "status IN [\"A\", \"B\"]" "status" [] rfl rfl rfl rfl (by decide)

/-! ## C4 -/

/-- C4 counterexample: a template whose elements list is empty carries the
rule id r5 yet emits no snippet at all (the loop silently skips it), and
generation then raises the format KeyError, so no rule_results dictionary
is ever built and r5 never appears in one - refuting the claim that every
rule_id present in the input appears exactly once in rule_results. -/
theorem C4_counterexample :
    rules_code [noElemsTemplate] = Except.ok [] ∧
    generate_pandas_validation [noElemsTemplate] = Except.error formatKeyError := by
  decide

/-- C4 amended: when the snippet loop completes, every emitted snippet
traces back to a template carrying that rule id and a non-empty elements
list (templates with empty elements or an unrecognised type are silently
skipped and emit nothing); and generation never returns validation source,
so no rule_results dictionary is ever built from the snippets. -/
theorem C4_amended (templates : List RuleTemplate) (rules : List RuleSnippet)
    (hc : rules_code templates = Except.ok rules) :
    (∀ r ∈ rules, ∃ tmpl, tmpl ∈ templates ∧ tmpl.rule_id = some r.rule_id ∧
      tmpl.elements.getD [] ≠ []) ∧
    ∀ code, generate_pandas_validation templates ≠ Except.ok code :=
  ⟨rules_code_sources templates rules hc,
   fun code => generate_pandas_validation_never_ok templates code⟩

/-- C4 amended witness: the two-template batch mixedTemplates, whose loop
emits exactly the snippets of mixedRules. -/
theorem C4_amended_witness :
    (∀ r ∈ mixedRules, ∃ tmpl, tmpl ∈ mixedTemplates ∧ tmpl.rule_id = some r.rule_id ∧
      tmpl.elements.getD [] ≠ []) ∧
    ∀ code, generate_pandas_validation mixedTemplates ≠ Except.ok code :=
  C4_amended mixedTemplates mixedRules (by decide)

/-! ## C5 -/

/-- C5 counterexample: a template with a rule id but empty elements is
silently skipped by the loop (ok none, no error of any kind), a template
missing rule_id raises a KeyError (not a MalformedRuleError, which does not
exist in the code), and generation raises the format KeyError even on
templates the loop accepts - refuting the claim that malformed templates
are rejected with a MalformedRuleError and never silently skipped. -/
theorem C5_counterexample :
    rule_snippet noElemsTemplate = Except.ok Option.none ∧
    rules_code [noRuleIdTemplate] = Except.error "KeyError: rule_id" ∧
    generate_pandas_validation [noElemsTemplate] = Except.error formatKeyError := by
  decide

/-- C5 amended: a template with a rule id but missing or empty elements is
silently skipped by the snippet loop; a template missing rule_id makes the
loop raise a KeyError; and no input ever yields validation source, since
the format call raises after the loop. -/
theorem C5_amended (tmpl : RuleTemplate) (rid : String)
    (hid : tmpl.rule_id = some rid) (hels : tmpl.elements.getD [] = []) :
    rule_snippet tmpl = Except.ok Option.none ∧
    (∀ tmpl2 : RuleTemplate, tmpl2.rule_id = Option.none →
      rule_snippet tmpl2 = Except.error "KeyError: rule_id") ∧
    ∀ (templates : List RuleTemplate) (code : String),
      generate_pandas_validation templates ≠ Except.ok code := by
  refine ⟨?_, ?_, fun ts code => generate_pandas_validation_never_ok ts code⟩
  · simp only [rule_snippet, hid, hels]
  · intro t2 h2
    simp only [rule_snippet, h2]

/-- C5 amended witness: the empty-elements template noElemsTemplate. -/
theorem C5_amended_witness :
    rule_snippet noElemsTemplate = Except.ok Option.none ∧
    (∀ tmpl2 : RuleTemplate, tmpl2.rule_id = Option.none →
      rule_snippet tmpl2 = Except.error "KeyError: rule_id") ∧
    ∀ (templates : List RuleTemplate) (code : String),
      generate_pandas_validation templates ≠ Except.ok code :=
  C5_amended noElemsTemplate "r5" rfl rfl

/-! ## C6 -/

/-- C6 counterexample: on a categorical template without an IN token the
loop silently defaults the spliced membership literal to the empty-list
text and records no error message anywhere, and generation then raises the
format KeyError - refuting the claim that an unparsable logic string yields
an always-passing compiled predicate with a recorded compile-time error
message. -/
theorem C6_counterexample :
    rules_code [noInTemplate] = Except.ok [noInRule] ∧
    generate_pandas_validation [noInTemplate] = Except.error formatKeyError := by
  decide

/-- C6 amended: for a categorical-check template whose logic has no IN
token, the loop iteration emits a snippet splicing the default empty-list
literal and records no diagnostic of any kind; generation nevertheless
raises on every input, so the spliced predicate never runs. -/
theorem C6_amended (tmpl : RuleTemplate) (rid logic col : String) (restEls : List String)
    (hid : tmpl.rule_id = some rid) (htype : tmpl.type = some "categorical_check")
    (hels : tmpl.elements = some (col :: restEls)) (hlogic : tmpl.logic = some logic)
    (hnoIn : containsTok logic.data ['I', 'N'] = false) :
    rule_snippet tmpl = Except.ok (some ⟨rid, tmpl.description.getD "",
      tmpl.severity.getD "warning", RuleKind.categorical_check col ['[', ']']⟩) ∧
    ∀ templates : List RuleTemplate, ∃ e,
      generate_pandas_validation templates = Except.error e := by
  obtain ⟨a, b, c, d, e2, f⟩ := tmpl
  obtain rfl : a = some rid := hid
  obtain rfl : b = some "categorical_check" := htype
  obtain rfl : c = some (col :: restEls) := hels
  obtain rfl : d = some logic := hlogic
  refine ⟨?_, fun ts => generate_pandas_validation_raises ts⟩
  have hred : rule_snippet ⟨some rid, some "categorical_check", some (col :: restEls),
      some logic, e2, f⟩ = Except.ok (some ⟨rid, e2.getD "", f.getD "warning",
      RuleKind.categorical_check col (if containsTok logic.data ['I', 'N'] then
        trimChars ((splitTok ['I', 'N'] logic.data).getD 1 [])
      else ['[', ']'])⟩) := rfl
  rw [hred, if_neg (by simp [hnoIn])]

/-- C6 amended witness: the no-IN template noInTemplate. -/
theorem C6_amended_witness :
    rule_snippet noInTemplate = Except.ok (some ⟨"r6", noInTemplate.description.getD "",
      noInTemplate.severity.getD "warning",
      RuleKind.categorical_check "status" ['[', ']']⟩) ∧
    ∀ templates : List RuleTemplate, ∃ e,
      generate_pandas_validation templates = Except.error e :=
  C6_amended noInTemplate "r6" "allowed values: A or B" "status" [] rfl rfl rfl rfl (by decide)

/-! ## C7 -/

/-- C7 counterexample: the claim asserts that two runs on identical inputs
produce byte-identical ValidationResult values; but a run on the templates
of the specification produces no ValidationResult at all - generation
raises the format KeyError before any validation source exists. -/
theorem C7_counterexample :
    generate_pandas_validation [rangeTemplate, catTemplate] = Except.error formatKeyError := by
  decide

/-- C7 amended: on every fixed input the generation step of the pipeline
deterministically raises (the model pins down one exception value), and no
run ever returns validation source, so neither of two repeated runs ever
produces a ValidationResult to compare. -/
theorem C7_amended (templates : List RuleTemplate) :
    ∃ e, generate_pandas_validation templates = Except.error e ∧
      ∀ code, generate_pandas_validation templates ≠ Except.ok code := by
  obtain ⟨e, he⟩ := generate_pandas_validation_raises templates
  exact ⟨e, he, fun code => generate_pandas_validation_never_ok templates code⟩

/-! ## C8 -/

/-- A plan whose can_automate value defaults or evaluates to boolean false
is skipped without touching the working copy or the record log. -/
theorem remediationStep_skip (tf : PyVal → TransformResult)
    (acc : DataFrame × List AppliedRecord) (p : String × PlanObj)
    (h : (alistGet p.2 "can_automate").getD (PyVal.bool false) = PyVal.bool false) :
    remediationStep tf acc p = acc := by
  unfold remediationStep
  rw [h]
  rfl

/-- C8: when every plan carries can_automate equal to boolean false, the
Remediation Executor returns the dataset unchanged (its working copy is
never written) together with an empty applied-record list; the executor is a
pure function of its copy, so the caller's dataset is never mutated. -/
theorem C8_no_automation_no_change (data : DataFrame) (plans : List (String × PlanObj))
    (tf : PyVal → TransformResult)
    (h : ∀ p ∈ plans, (alistGet p.2 "can_automate").getD (PyVal.bool false) = PyVal.bool false) :
    apply_automatic_remediations data plans tf = (data, []) := by
  unfold apply_automatic_remediations
  induction plans with
  | nil => rfl
  | cons p rest ih =>
    rw [List.foldl_cons, remediationStep_skip tf _ p (h p (List.mem_cons_self _ _))]
    exact ih (fun q hq => h q (List.mem_cons_of_mem _ hq))

/-- C8 witness: two manual-review plans, one with an explicit false flag and
one with no can_automate key at all (the lookup default false applies). -/
theorem C8_no_automation_no_change_witness :
    apply_automatic_remediations rangeDf
      [("r1", [("can_automate", PyVal.bool false), ("explanation", PyVal.str "manual")]),
       ("r2", [("explanation", PyVal.str "manual")])]
      (fun _ => TransformResult.noFunc) = (rangeDf, []) :=
  C8_no_automation_no_change rangeDf
    [("r1", [("can_automate", PyVal.bool false), ("explanation", PyVal.str "manual")]),
     ("r2", [("explanation", PyVal.str "manual")])]
    (fun _ => TransformResult.noFunc)
    (by
      intro p hp
      rcases List.mem_cons.mp hp with rfl | hp2
      · rfl
      · rcases List.mem_cons.mp hp2 with rfl | hp3
        · rfl
        · simp at hp3)

/-! ## C10 -/

/-- One fill step leaves every other key unchanged. -/
theorem fillStep_get_ne (o : PlanObj) (k k2 : String) (h : k2 ≠ k) :
    alistGet (if (alistGet o k).isNone then alistSet o k (PyVal.str "Not provided") else o) k2 =
      alistGet o k2 := by
  split
  · exact alistGet_alistSet_ne o k k2 _ h
  · rfl

/-- One fill step at an absent key installs the placeholder. -/
theorem fillStep_get_self (o : PlanObj) (k : String) (h : alistGet o k = Option.none) :
    alistGet (if (alistGet o k).isNone then alistSet o k (PyVal.str "Not provided") else o) k =
      some (PyVal.str "Not provided") := by
  rw [if_pos (by rw [h]; rfl)]
  exact alistGet_alistSet_self o k _

/-- Filling the required keys of a response lacking can_automate sets that
key to the placeholder text. -/
theorem fillMissing_can_automate (obj : PlanObj)
    (h : alistGet obj "can_automate" = Option.none) :
    alistGet (fillMissing obj) "can_automate" = some (PyVal.str "Not provided") := by
  unfold fillMissing requiredKeys
  simp only [List.foldl_cons, List.foldl_nil]
  rw [fillStep_get_ne _ _ _ (by decide)]
  rw [fillStep_get_self]
  rw [fillStep_get_ne _ _ _ (by decide), fillStep_get_ne _ _ _ (by decide)]
  exact h

/-- The synthesized plan of a successfully parsed response lacking
can_automate carries the placeholder text under that key (the metadata
assignments touch only rule_id, rule_type and severity). -/
theorem gsr_can_automate (rid : String) (info : RuleTemplate) (obj : PlanObj)
    (h : alistGet obj "can_automate" = Option.none) :
    alistGet (generate_single_remediation rid info (Except.ok obj)) "can_automate" =
      some (PyVal.str "Not provided") := by
  simp only [generate_single_remediation]
  rw [alistGet_alistSet_ne _ _ _ _ (by decide), alistGet_alistSet_ne _ _ _ _ (by decide),
    alistGet_alistSet_ne _ _ _ _ (by decide)]
  exact fillMissing_can_automate obj h

/-- A plan whose can_automate value is truthy is attempted: the loop
iteration appends exactly one record carrying the plan's rule id. -/
theorem remediationStep_attempt (tf : PyVal → TransformResult)
    (acc : DataFrame × List AppliedRecord) (p : String × PlanObj)
    (h : ((alistGet p.2 "can_automate").getD (PyVal.bool false)).truthy = true) :
    ∃ rec : AppliedRecord, (remediationStep tf acc p).2 = acc.2 ++ [rec] ∧
      rec.rule_id = p.1 := by
  unfold remediationStep
  rw [h]
  simp only [Bool.not_true, Bool.false_eq_true, if_false]
  split
  · exact ⟨_, rfl, rfl⟩
  · exact ⟨_, rfl, rfl⟩
  · split
    · exact ⟨_, rfl, rfl⟩
    · exact ⟨_, rfl, rfl⟩

/-- C10: when the parsed service response lacks the can_automate key, the
synthesizer fills it with the placeholder text, which is a truthy string,
and the Remediation Executor therefore attempts automation for the plan
(its record log gains exactly the one entry for the rule) instead of
skipping it: automation is gated on Python truthiness, not on boolean
true. -/
theorem C10_truthy_can_automate (rid : String) (info : RuleTemplate) (obj : PlanObj)
    (df : DataFrame) (tf : PyVal → TransformResult)
    (h : alistGet obj "can_automate" = Option.none) :
    alistGet (generate_single_remediation rid info (Except.ok obj)) "can_automate" =
      some (PyVal.str "Not provided") ∧
    (PyVal.str "Not provided").truthy = true ∧
    (apply_automatic_remediations df
        [(rid, generate_single_remediation rid info (Except.ok obj))] tf).2.map
      AppliedRecord.rule_id = [rid] := by
  have hca := gsr_can_automate rid info obj h
  have htr : ((alistGet (generate_single_remediation rid info (Except.ok obj))
      "can_automate").getD (PyVal.bool false)).truthy = true := by
    rw [hca]
    decide
  obtain ⟨rec, happ, hrid⟩ := remediationStep_attempt tf (df, [])
    (rid, generate_single_remediation rid info (Except.ok obj)) htr
  refine ⟨hca, by decide, ?_⟩
  unfold apply_automatic_remediations
  rw [List.foldl_cons, List.foldl_nil, happ]
  simp [hrid]

/-- C10 witness: a concrete parsed response with only an explanation key;
the executor attempts the plan and logs one record for it. -/
theorem C10_truthy_can_automate_witness :
    alistGet (generate_single_remediation "r10" {} (Except.ok [("explanation", PyVal.str "x")]))
      "can_automate" = some (PyVal.str "Not provided") ∧
    (PyVal.str "Not provided").truthy = true ∧
    (apply_automatic_remediations oneRowDf
        [("r10", generate_single_remediation "r10" {}
          (Except.ok [("explanation", PyVal.str "x")]))]
        (fun _ => TransformResult.noFunc)).2.map AppliedRecord.rule_id = ["r10"] :=
  C10_truthy_can_automate "r10" {} [("explanation", PyVal.str "x")] oneRowDf
    (fun _ => TransformResult.noFunc) rfl

/-! ## C9 -/

theorem get?_eq_some_getD {α : Type} (l : List α) (i : Nat) (d : α) (h : i < l.length) :
    l.get? i = some (l.getD i d) := by
  induction l generalizing i with
  | nil => simp at h
  | cons a as ih =>
    cases i with
    | zero => rfl
    | succ j =>
      simp only [List.get?_cons_succ, List.getD_cons_succ]
      exact ih j (by simpa using h)

/-- Row selection by label succeeds when every label is a valid row
position. -/
theorem selectRows_ok (df : DataFrame) (idxs : List Nat)
    (h : ∀ i ∈ idxs, i < df.rows.length) :
    ∃ rs, selectRows df idxs = Except.ok rs := by
  refine ⟨idxs.map (fun i => df.rows.getD i []), ?_⟩
  unfold selectRows
  apply mapExcept_ok
  intro i hi2
  rw [get?_eq_some_getD df.rows i [] (h i hi2)]

/-- Whether the recommender synthesizes a plan for a rule id: the recorded
result (looked up with the empty-dictionary default) must carry a non-empty
failing-row list. -/
def shouldPlanFor (vr : ValidationResults) (rid : String) : Bool :=
  !(((alistGet vr.rule_results rid).getD emptyRuleResult).failed_records.getD []).isEmpty

/-- A failed rule with no recorded failing rows is skipped by the
recommendation loop. -/
theorem recommendStep_skip (vr : ValidationResults) (data : DataFrame)
    (templates : List RuleTemplate) (responses : String → Except String PlanObj)
    (acc : Recommendations) (rid : String) (h : shouldPlanFor vr rid = false) :
    recommendStep vr data templates responses acc rid = Except.ok acc := by
  have h2 : (((alistGet vr.rule_results rid).getD emptyRuleResult).failed_records.getD
      []).isEmpty = true := by
    revert h
    unfold shouldPlanFor
    cases (((alistGet vr.rule_results rid).getD emptyRuleResult).failed_records.getD
      []).isEmpty <;> simp
  unfold recommendStep
  rw [if_pos h2]

/-- A failed rule with recorded failing rows at valid labels receives
exactly one plan, stored under its rule id. -/
theorem recommendStep_plan (vr : ValidationResults) (data : DataFrame)
    (templates : List RuleTemplate) (responses : String → Except String PlanObj)
    (acc : Recommendations) (rid : String) (h : shouldPlanFor vr rid = true)
    (hidx : ∀ i ∈ (((alistGet vr.rule_results rid).getD emptyRuleResult).failed_records.getD
      []).take 10, i < data.rows.length) :
    ∃ s2, recommendStep vr data templates responses acc rid =
      Except.ok ⟨s2, alistSet acc.remediation_plans rid
        (generate_single_remediation rid ((lastTemplateFor templates rid).getD {})
          (responses rid))⟩ := by
  have h2 : (((alistGet vr.rule_results rid).getD emptyRuleResult).failed_records.getD
      []).isEmpty = false := by
    revert h
    unfold shouldPlanFor
    cases (((alistGet vr.rule_results rid).getD emptyRuleResult).failed_records.getD
      []).isEmpty <;> simp
  obtain ⟨rows2, hrows⟩ := selectRows_ok data _ hidx
  unfold recommendStep
  rw [if_neg (by rw [h2]; simp), hrows]
  exact ⟨_, rfl⟩

/-- Running the recommendation loop over fresh, duplicate-free rule ids with
valid failing-row labels succeeds, and the stored plan keys are exactly the
processed ids that carried a non-empty failing-row list, in order. -/
theorem recommendLoop_keys (vr : ValidationResults) (data : DataFrame)
    (templates : List RuleTemplate) (responses : String → Except String PlanObj) :
    ∀ (rids : List String) (acc : Recommendations),
    (∀ rid ∈ rids, ∀ i ∈ (((alistGet vr.rule_results rid).getD
        emptyRuleResult).failed_records.getD []).take 10, i < data.rows.length) →
    (∀ rid ∈ rids, alistGet acc.remediation_plans rid = Option.none) →
    rids.Nodup →
    ∃ out, recommendLoop vr data templates responses acc rids = Except.ok out ∧
      keysOf out.remediation_plans = keysOf acc.remediation_plans ++
        rids.filter (shouldPlanFor vr) := by
  intro rids
  induction rids with
  | nil =>
    intro acc _ _ _
    exact ⟨acc, rfl, by simp⟩
  | cons rid rest ih =>
    intro acc hidx hfresh hnd
    have hndr := List.nodup_cons.mp hnd
    by_cases hs : shouldPlanFor vr rid = true
    · obtain ⟨s2, hstep⟩ := recommendStep_plan vr data templates responses acc rid hs
        (hidx rid (List.mem_cons_self _ _))
      have hnotin : rid ∉ keysOf acc.remediation_plans := by
        rw [← alistGet_eq_none_iff]
        exact hfresh rid (List.mem_cons_self _ _)
      have hkeys2 : keysOf (alistSet acc.remediation_plans rid
          (generate_single_remediation rid ((lastTemplateFor templates rid).getD {})
            (responses rid))) = keysOf acc.remediation_plans ++ [rid] := by
        rw [alistSet_of_not_mem _ _ _ hnotin]
        simp [keysOf]
      obtain ⟨out, hout, hkeys⟩ := ih
        ⟨s2, alistSet acc.remediation_plans rid
          (generate_single_remediation rid ((lastTemplateFor templates rid).getD {})
            (responses rid))⟩
        (fun r hr => hidx r (List.mem_cons_of_mem _ hr))
        (by
          intro r hr
          rw [alistGet_eq_none_iff]
          show r ∉ keysOf (alistSet acc.remediation_plans rid
            (generate_single_remediation rid ((lastTemplateFor templates rid).getD {})
              (responses rid)))
          rw [hkeys2]
          intro hmem
          rcases List.mem_append.mp hmem with h1 | h1
          · exact ((alistGet_eq_none_iff _ _).mp (hfresh r (List.mem_cons_of_mem _ hr))) h1
          · have hr2 : r = rid := by simpa using h1
            subst hr2
            exact hndr.1 hr)
        hndr.2
      refine ⟨out, ?_, ?_⟩
      · simp only [recommendLoop, hstep]
        exact hout
      · rw [hkeys]
        show keysOf (alistSet acc.remediation_plans rid
          (generate_single_remediation rid ((lastTemplateFor templates rid).getD {})
            (responses rid))) ++ rest.filter (shouldPlanFor vr) = _
        rw [hkeys2]
        simp [List.filter_cons, hs, List.append_assoc]
    · have hs2 : shouldPlanFor vr rid = false := by
        revert hs
        cases shouldPlanFor vr rid <;> simp
      have hstep := recommendStep_skip vr data templates responses acc rid hs2
      obtain ⟨out, hout, hkeys⟩ := ih acc (fun r hr => hidx r (List.mem_cons_of_mem _ hr))
        (fun r hr => hfresh r (List.mem_cons_of_mem _ hr)) hndr.2
      refine ⟨out, ?_, ?_⟩
      · simp only [recommendLoop, hstep]
        exact hout
      · rw [hkeys]
        simp [List.filter_cons, hs2]

/-- A validation result with one failed rule recorded through the exception
path: an error message but no failing-row list. -/
def errOnlyResults : ValidationResults :=
  ⟨⟨1, 0, 1, "t"⟩, [("r1", ⟨false, "range rule", "high", Option.none,
    some "Error executing rule: boom"⟩)]⟩

/-- A validation result with one failed rule carrying one failing row. -/
def oneFailResults : ValidationResults :=
  ⟨⟨1, 0, 1, "t"⟩, [("r1", ⟨false, "range rule", "high", some [0], some ""⟩)]⟩

/-- C9 counterexample: a rule recorded as failed with an error message and
no failing rows receives no remediation plan at all — the loop skips any
failed rule whose failed_records list is empty or absent — refuting the
claim that every failed rule, including those that failed with an error
message and no failing rows, gets exactly one plan. -/
theorem C9_counterexample :
    generate_remediation_recommendations errOnlyResults oneRowDf [rangeTemplate]
      (fun _ => Except.error "service down") = Except.ok ⟨⟨1, 0, 0⟩, []⟩ := rfl

/-- C9 amended: with unique result keys, templates that all carry a rule id,
and recorded failing rows at valid labels, the synthesizer produces exactly
one plan for every rule recorded as failed with a non-empty failed_records
list, and no plan for any rule that passed or that failed without recorded
failing rows (in particular rules that failed with only an error
message). -/
theorem C9_amended (vr : ValidationResults) (data : DataFrame)
    (templates : List RuleTemplate) (responses : String → Except String PlanObj)
    (hnd : (keysOf vr.rule_results).Nodup)
    (ht : ∀ t ∈ templates, t.rule_id.isSome = true)
    (hidx : ∀ p ∈ vr.rule_results, ∀ i ∈ p.2.failed_records.getD [], i < data.rows.length) :
    ∃ recs, generate_remediation_recommendations vr data templates responses = Except.ok recs ∧
      (keysOf recs.remediation_plans).Nodup ∧
      ∀ rid, ((alistGet recs.remediation_plans rid).isSome = true ↔
        ∃ rr, alistGet vr.rule_results rid = some rr ∧ rr.passed = false ∧
          rr.failed_records.getD [] ≠ []) := by
  have hfr_mem : ∀ rid : String,
      rid ∈ (vr.rule_results.filter (fun p => !p.2.passed)).map Prod.fst ↔
      ∃ rr, alistGet vr.rule_results rid = some rr ∧ rr.passed = false := by
    intro rid
    constructor
    · intro hmem
      rw [List.mem_map] at hmem
      obtain ⟨p, hp, rfl⟩ := hmem
      rw [List.mem_filter] at hp
      refine ⟨p.2, ?_, by simpa using hp.2⟩
      exact alistGet_of_mem_nodup _ _ _ hnd (by simpa using hp.1)
    · rintro ⟨rr, hget, hpass⟩
      have hmem := alistGet_mem _ _ _ hget
      rw [List.mem_map]
      exact ⟨(rid, rr), List.mem_filter.mpr ⟨hmem, by simp [hpass]⟩, rfl⟩
  have hsp_iff : ∀ (rid : String) (rr : RuleResult), alistGet vr.rule_results rid = some rr →
      (shouldPlanFor vr rid = true ↔ rr.failed_records.getD [] ≠ []) := by
    intro rid rr hget
    unfold shouldPlanFor
    rw [hget]
    simp only [Option.getD_some]
    cases hl : rr.failed_records.getD [] <;> simp [hl]
  by_cases hemp : ((vr.rule_results.filter (fun p => !p.2.passed)).map Prod.fst).isEmpty = true
  · refine ⟨⟨⟨((vr.rule_results.filter (fun p => !p.2.passed)).map Prod.fst).length, 0, 0⟩, []⟩,
      ?_, by simp [keysOf], ?_⟩
    · simp only [generate_remediation_recommendations, hemp, if_true]
    · intro rid
      have hnil : (vr.rule_results.filter (fun p => !p.2.passed)).map Prod.fst = [] := by
        revert hemp
        cases (vr.rule_results.filter (fun p => !p.2.passed)).map Prod.fst <;> simp
      constructor
      · intro hsome
        simp [alistGet] at hsome
      · rintro ⟨rr, hget, hpass, _⟩
        exfalso
        have hmem := (hfr_mem rid).mpr ⟨rr, hget, hpass⟩
        rw [hnil] at hmem
        simp at hmem
  · have hemp2 : ((vr.rule_results.filter (fun p => !p.2.passed)).map Prod.fst).isEmpty
        = false := by
      revert hemp
      cases ((vr.rule_results.filter (fun p => !p.2.passed)).map Prod.fst).isEmpty <;> simp
    have hany : (templates.any (fun t => t.rule_id.isNone)) = false := by
      cases h2 : templates.any (fun t => t.rule_id.isNone)
      · rfl
      · exfalso
        rw [List.any_eq_true] at h2
        obtain ⟨t, htm, hnone⟩ := h2
        have hsome := ht t htm
        rw [Option.isNone_iff_eq_none] at hnone
        rw [hnone] at hsome
        simp at hsome
    have hndfr : ((vr.rule_results.filter (fun p => !p.2.passed)).map Prod.fst).Nodup := by
      have hsub : List.Sublist ((vr.rule_results.filter (fun p => !p.2.passed)).map Prod.fst)
          (vr.rule_results.map Prod.fst) :=
        (List.filter_sublist _).map Prod.fst
      exact List.Nodup.sublist hsub hnd
    have hidx2 : ∀ rid ∈ (vr.rule_results.filter (fun p => !p.2.passed)).map Prod.fst,
        ∀ i ∈ (((alistGet vr.rule_results rid).getD emptyRuleResult).failed_records.getD
          []).take 10, i < data.rows.length := by
      intro rid hr i hi2
      obtain ⟨rr, hget, _⟩ := (hfr_mem rid).mp hr
      rw [hget] at hi2
      simp only [Option.getD_some] at hi2
      exact hidx (rid, rr) (alistGet_mem _ _ _ hget) i (List.take_subset _ _ hi2)
    obtain ⟨out, hout, hkeys⟩ := recommendLoop_keys vr data templates responses
      ((vr.rule_results.filter (fun p => !p.2.passed)).map Prod.fst)
      ⟨⟨((vr.rule_results.filter (fun p => !p.2.passed)).map Prod.fst).length, 0, 0⟩, []⟩
      hidx2 (fun r hr => rfl) hndfr
    refine ⟨out, ?_, ?_, ?_⟩
    · simp only [generate_remediation_recommendations, hemp2, hany, Bool.false_eq_true,
        if_false]
      exact hout
    · rw [hkeys]
      simp only [keysOf, List.map_nil, List.nil_append]
      exact List.Nodup.filter _ hndfr
    · intro rid
      rw [alistGet_isSome_iff, hkeys]
      simp only [keysOf, List.map_nil, List.nil_append]
      rw [List.mem_filter]
      constructor
      · rintro ⟨hmem, hsp⟩
        obtain ⟨rr, hget, hpass⟩ := (hfr_mem rid).mp hmem
        exact ⟨rr, hget, hpass, (hsp_iff rid rr hget).mp hsp⟩
      · rintro ⟨rr, hget, hpass, hrec⟩
        exact ⟨(hfr_mem rid).mpr ⟨rr, hget, hpass⟩, (hsp_iff rid rr hget).mpr hrec⟩

/-- C9 amended witness: one failed rule with a recorded failing row receives
a plan; the characterisation holds at every rule id. -/
theorem C9_amended_witness :
    ∃ recs, generate_remediation_recommendations oneFailResults oneRowDf [rangeTemplate]
        (fun _ => Except.error "service down") = Except.ok recs ∧
      (keysOf recs.remediation_plans).Nodup ∧
      ∀ rid, ((alistGet recs.remediation_plans rid).isSome = true ↔
        ∃ rr, alistGet oneFailResults.rule_results rid = some rr ∧ rr.passed = false ∧
          rr.failed_records.getD [] ≠ []) :=
  C9_amended oneFailResults oneRowDf [rangeTemplate] (fun _ => Except.error "service down")
    (by decide) (by decide) (by decide)

